import Mathlib

/-!
# Verification of the AegisWallet pattern-scanning validators

Shallow embedding of the scoring engines in
`.factory/skills/aegis-architect/scripts/brazilian_compliance_validator.py`,
`.factory/skills/aegis-architect/scripts/performance_audit.py`,
`.factory/skills/aegis-architect/scripts/voice_performance_analyzer.py` and
`.factory/skills/brazilian-fintech-compliance/scripts/compliance-validator.py`,
together with theorems settling the specification claims about them.

File contents are modelled as `Option String`: `none` stands for a file whose
read raises `UnicodeDecodeError` or `PermissionError`.  Loops that the source
wraps in `try/except` skip such files; loops with no handler are modelled in
`Except`, propagating an error.  Python string lowering (`str.lower()`) and
case-insensitive regex search (`re.IGNORECASE`) are modelled by ASCII
character lowering, which agrees with Python on the ASCII pattern literals the
source uses.
-/

namespace AegisWallet

/-! ## String scanning primitives -/

/-- ASCII lowering of a string to its character list, modelling Python
`str.lower()` on the ASCII fragment the source patterns live in. -/
def lowerStr (s : String) : List Char :=
  s.data.map Char.toLower

/-- Unanchored substring test on character lists. -/
def isSubList (p : List Char) : List Char → Bool
  | [] => p.isEmpty
  | c :: r => p.isPrefixOf (c :: r) || isSubList p r

/-- Case-insensitive unanchored substring search: models both Python
`literal in content.lower()` and `re.search(literal, content, re.IGNORECASE)`
for a literal pattern. -/
def containsCI (needle hay : String) : Bool :=
  isSubList (lowerStr needle) (lowerStr hay)

/-- Case-sensitive substring search, modelling Python `literal in content`
on content that was not lowered. -/
def containsCS (needle hay : String) : Bool :=
  isSubList needle.data hay.data

/-- The suffix of `l` that follows the first occurrence of `p`, if `p`
occurs in `l` at all. -/
def afterFirst (p : List Char) : List Char → Option (List Char)
  | [] => if p.isEmpty then some [] else none
  | c :: r =>
    if p.isPrefixOf (c :: r) then some ((c :: r).drop p.length)
    else afterFirst p r

/-- One line matches the regex `l₀.*l₁.*…*lₙ` (literals separated by `.*`)
iff each literal occurs after the previous one. -/
def lineOrdered : List (List Char) → List Char → Bool
  | [], _ => true
  | a :: rest, l =>
    match afterFirst a l with
    | some l2 => lineOrdered rest l2
    | none => false

/-- Split a character list on newline characters, because Python `.` in a
regex does not match `\n`. -/
def splitOnNl : List Char → List (List Char)
  | [] => [[]]
  | c :: r =>
    let rest := splitOnNl r
    if c = '\n' then [] :: rest
    else
      match rest with
      | [] => [[c]]
      | h :: t => (c :: h) :: t

/-- Case-insensitive match of the regex `l₀.*l₁.*…*lₙ` over whole-file
content (`.` does not cross newlines). -/
def orderedCI (lits : List String) (hay : String) : Bool :=
  (splitOnNl (lowerStr hay)).any fun line => lineOrdered (lits.map lowerStr) line

/-- The whitespace characters of Python's regex class `\s` (ASCII part). -/
def isPySpace (c : Char) : Bool :=
  c = ' ' || c = '\t' || c = '\n' || c = '\r' || c = Char.ofNat 11 || c = Char.ofNat 12

/-- Drop a leading run of `\s` characters. -/
def dropPySpace : List Char → List Char
  | [] => []
  | c :: r => if isPySpace c then dropPySpace r else c :: r

/-- Tail of a chain match: skip any whitespace run, then the next literal,
then the rest of the chain. -/
def chainRest : List (List Char) → List Char → Bool
  | [], _ => true
  | a :: rest, l =>
    let l2 := dropPySpace l
    a.isPrefixOf l2 && chainRest rest (l2.drop a.length)

/-- Chain match anchored at the current position: the first literal here,
then whitespace-separated subsequent literals. -/
def chainHere : List (List Char) → List Char → Bool
  | [], _ => true
  | a :: rest, l => a.isPrefixOf l && chainRest rest (l.drop a.length)

/-- Does some suffix of the list satisfy the predicate? -/
def anySuffix (p : List Char → Bool) : List Char → Bool
  | [] => p []
  | c :: r => p (c :: r) || anySuffix p r

/-- Case-insensitive match of the regex `l₀\s*l₁\s*…\s*lₙ` (each later
literal begins with a non-whitespace character in every use below). -/
def chainCI (lits : List String) (hay : String) : Bool :=
  anySuffix (chainHere (lits.map lowerStr)) (lowerStr hay)

/-- The strings denoted by a single whitespace-or-underscore separator, plus
the empty choice: the regex fragment `[_\s]?`. -/
def pySpaceStrings : List String :=
  [" ", "\t", "\n", "\r", (Char.ofNat 11).toString, (Char.ofNat 12).toString]

/-- Alternatives of the regex fragment `[_\s]?`. -/
def optUnd : List String := "" :: "_" :: pySpaceStrings

/-- Alternatives of the regex fragment `[\s_-]?`. -/
def optUndDash : List String := "" :: "_" :: "-" :: pySpaceStrings

/-- Alternatives of the regex fragment `[-_]?`. -/
def optDash : List String := ["", "-", "_"]

/-- All concrete strings denoted by a sequence of parts, each part a finite
set of alternatives.  Used to expand regexes over finite languages such as
`pol[ií]tica[_\s]?de[_\s]?privacidade`. -/
def expandParts : List (List String) → List String
  | [] => [""]
  | p :: rest => p.flatMap fun s => (expandParts rest).map (s ++ ·)

/-- Some alternative occurs in the haystack (case-insensitively). -/
def anyAltCI (alts : List String) (hay : String) : Bool :=
  alts.any fun a => containsCI a hay

/-! ### Lemmas about the scanning primitives -/

theorem isSubList_nil (l : List Char) : isSubList [] l = true := by
  cases l <;> simp [isSubList, List.isPrefixOf]

theorem isSubList_append_left {p a : List Char} (b : List Char)
    (h : isSubList p a = true) : isSubList p (a ++ b) = true := by
  induction a with
  | nil =>
    simp only [isSubList, List.isEmpty_iff] at h
    subst h
    simpa using isSubList_nil b
  | cons c r ih =>
    simp only [List.cons_append, isSubList, Bool.or_eq_true] at h ⊢
    rcases h with h | h
    · left
      rw [List.isPrefixOf_iff_prefix] at h ⊢
      exact (h.trans (List.prefix_append (c :: r) b) : p <+: (c :: r) ++ b)
    · right
      exact ih h

theorem isSubList_append_right {p b : List Char} (a : List Char)
    (h : isSubList p b = true) : isSubList p (a ++ b) = true := by
  induction a with
  | nil => simpa using h
  | cons c r ih =>
    simp only [List.cons_append, isSubList, Bool.or_eq_true]
    right
    exact ih

/-! ## Common file-tree data model -/

/-- A file as seen by a scanner.  `content = none` models a file whose read
raises `UnicodeDecodeError` or `PermissionError`. -/
structure SrcFile where
  content : Option String
deriving Repr, DecidableEq

/-- A protected scan loop (`try/except (UnicodeDecodeError, PermissionError):
continue`): unreadable files are skipped and contribute no match. -/
def flagAny (check : String → Bool) (files : List SrcFile) : Bool :=
  files.any fun f =>
    match f.content with
    | some c => check c
    | none => false

namespace BCV

/-!
## brazilian_compliance_validator.py (aegis-architect)

`BrazilianComplianceValidator`: four accrual categories (lgpd, pix,
openbanking, security) scanned over `*.ts`/`*.tsx` files, SQL migration
files, and the existence of a few documentation paths.
-/

/-- The part of the file tree this validator reads.  `migrations = none`
models a missing `supabase/` or `supabase/migrations/` directory; the
constructor performs no existence check on the root, so a nonexistent root
simply yields empty lists here. -/
structure AegisTree where
  tsFiles : List SrcFile
  tsxFiles : List SrcFile
  migrations : Option (List SrcFile)
  existingPaths : List String
deriving Repr, DecidableEq

/-- `list(self.directory.rglob('*.ts')) + list(self.directory.rglob('*.tsx'))`. -/
def codeFiles (t : AegisTree) : List SrcFile := t.tsFiles ++ t.tsxFiles

/-- Per-category slot of `self.results['brazilian_compliance']`. -/
structure CatResult where
  score : Nat
  issues : List String
deriving Repr, DecidableEq

/-- `self.results` of the validator. -/
structure AegisResults where
  valid : Bool
  complianceScore : Nat
  errors : List String
  warnings : List String
  recommendations : List String
  checksPerformed : List String
  lgpd : CatResult
  pix : CatResult
  openbanking : CatResult
  security : CatResult
deriving Repr, DecidableEq

/-- The initial `self.results` dict (lines 26-39). -/
def initResults : AegisResults :=
  { valid := true, complianceScore := 0, errors := [], warnings := [],
    recommendations := [], checksPerformed := [],
    lgpd := ⟨0, []⟩, pix := ⟨0, []⟩, openbanking := ⟨0, []⟩, security := ⟨0, []⟩ }

/-! ### LGPD category (lines 61-189) -/

/-- `lgpd_patterns['consent_management']`:
`consentimento|consent`, `lgpd|lei[_\s]?geral`, `data[_\s]?protection`,
`pol[ií]tica[_\s]?de[_\s]?privacidade`. -/
def lgpdConsentCheck (c : String) : Bool :=
  (containsCI "consentimento" c || containsCI "consent" c) ||
  (containsCI "lgpd" c || anyAltCI (expandParts [["lei"], optUnd, ["geral"]]) c) ||
  anyAltCI (expandParts [["data"], optUnd, ["protection"]]) c ||
  anyAltCI (expandParts [["pol"], ["i", "í"], ["tica"], optUnd, ["de"], optUnd,
    ["privacidade"]]) c

/-- `lgpd_patterns['data_minimization']`:
`m[ií]nimo[_\s]?necess[áa]rio`, `data[_\s]?minimization`,
`coletar[_\s]?apenas[_\s]?necess[áa]rio`. -/
def lgpdDataMinCheck (c : String) : Bool :=
  anyAltCI (expandParts [["m"], ["i", "í"], ["nimo"], optUnd, ["necess"],
    ["á", "a"], ["rio"]]) c ||
  anyAltCI (expandParts [["data"], optUnd, ["minimization"]]) c ||
  anyAltCI (expandParts [["coletar"], optUnd, ["apenas"], optUnd, ["necess"],
    ["á", "a"], ["rio"]]) c

/-- `lgpd_patterns['user_rights']`:
`direito[_\s]?de[_\s]?acesso`, `direito[_\s]?de[_\s]?retifica[cç][ãa]o`,
`direito[_\s]?ao[_\s]?esquecimento`, `data[_\s]?portability`. -/
def lgpdUserRightsCheck (c : String) : Bool :=
  anyAltCI (expandParts [["direito"], optUnd, ["de"], optUnd, ["acesso"]]) c ||
  anyAltCI (expandParts [["direito"], optUnd, ["de"], optUnd, ["retifica"],
    ["c", "ç"], ["ã", "a"], ["o"]]) c ||
  anyAltCI (expandParts [["direito"], optUnd, ["ao"], optUnd, ["esquecimento"]]) c ||
  anyAltCI (expandParts [["data"], optUnd, ["portability"]]) c

/-- Per-migration-file LGPD contribution (lines 105-118).  Note: the source
accrues these points again for each matching migration file, inside the
`for migration_file in migrations_dir.glob('*.sql')` loop. -/
def lgpdMigFileScore (c : String) : Nat :=
  (if containsCI "consentimento" c || containsCI "data_processing_consent" c then 10 else 0) +
  (if containsCI "retention" c || containsCI "expira" c then 10 else 0) +
  (if containsCI "created_at" c && containsCI "updated_at" c then 5 else 0)

/-- The LGPD migrations loop (lines 100-118): the `open` is not wrapped in a
`try/except`, so an unreadable migration file propagates an exception. -/
def lgpdMigScan : List SrcFile → Except Unit Nat
  | [] => .ok 0
  | f :: rest =>
    match f.content with
    | none => .error ()
    | some c => (lgpdMigScan rest).map (lgpdMigFileScore c + ·)

/-- Lines 96-99: the whole migrations block is skipped when `supabase/` or
`supabase/migrations/` does not exist. -/
def lgpdMigPart : Option (List SrcFile) → Except Unit Nat
  | none => .ok 0
  | some migs => lgpdMigScan migs

/-- `privacy_policy_files` (lines 166-169). -/
def privacyPolicyFiles : List String :=
  ["privacy_policy.md", "politica_privacidade.md", "lgpd_compliance.md",
   "compliance/lgpd.md"]

def lgpdConsentFound (t : AegisTree) : Bool := flagAny lgpdConsentCheck (codeFiles t)

def lgpdDataMinFound (t : AegisTree) : Bool := flagAny lgpdDataMinCheck (codeFiles t)

def lgpdUserRightsFound (t : AegisTree) : Bool := flagAny lgpdUserRightsCheck (codeFiles t)

def lgpdPrivacyFound (t : AegisTree) : Bool :=
  privacyPolicyFiles.any fun f => t.existingPaths.contains f

/-- `_check_rls_implementation` patterns (lines 541-545):
`ENABLE ROW LEVEL SECURITY`, `CREATE POLICY`, `auth\.uid\(\)`, searched with
`re.IGNORECASE`. -/
def rlsCheckContent (c : String) : Bool :=
  containsCI "ENABLE ROW LEVEL SECURITY" c || containsCI "CREATE POLICY" c ||
  containsCI "auth.uid()" c

/-- `_check_rls_implementation` (lines 531-556); this migrations loop is
protected by a `try/except`. -/
def checkRlsImplementation (t : AegisTree) : Bool :=
  match t.migrations with
  | none => false
  | some migs => flagAny rlsCheckContent migs

/-- The LGPD score, given the accumulated migrations contribution. -/
def lgpdScoreOf (t : AegisTree) (migScore : Nat) : Nat :=
  migScore + (if lgpdConsentFound t then 20 else 0) +
  (if lgpdDataMinFound t then 15 else 0) +
  (if lgpdUserRightsFound t then 15 else 0) +
  (if lgpdPrivacyFound t then 15 else 0) +
  (if checkRlsImplementation t then 10 else 0)

/-- The LGPD issues appended during validation, in source order. -/
def lgpdIssuesOf (t : AegisTree) : List String :=
  (if lgpdConsentFound t then [] else ["Missing consent management implementation"]) ++
  (if lgpdDataMinFound t then [] else ["Missing data minimization implementation"]) ++
  (if lgpdUserRightsFound t then [] else ["Missing user rights implementation"]) ++
  (if checkRlsImplementation t then [] else ["Missing RLS for data protection"])

/-- `validate_lgpd_compliance` (lines 61-189), as a transformer of
`self.results`. -/
def validateLgpdCompliance (t : AegisTree) (r : AegisResults) :
    Except Unit AegisResults :=
  (lgpdMigPart t.migrations).map fun migScore =>
    let score := lgpdScoreOf t migScore
    { r with
      checksPerformed := r.checksPerformed ++ ["lgpd"],
      lgpd := ⟨score, r.lgpd.issues ++ lgpdIssuesOf t⟩,
      recommendations := r.recommendations ++
        (if lgpdPrivacyFound t then [] else ["Create LGPD privacy policy documentation"]),
      warnings := r.warnings ++
        (if score < 70 then
          ["LGPD compliance score: " ++ toString score ++ "% (target: 70%+)"]
        else []) }

/-! ### PIX category (lines 191-331) -/

/-- Per-migration-file PIX contribution (lines 237-261); accrued again for
each matching migration file. -/
def pixMigFileScore (c : String) : Nat :=
  if containsCI "pix_transactions" c || containsCI "transactions" c then
    (if containsCI "end_to_end_id" c then 15 else 0) +
    (if containsCI "transaction_id" c then 10 else 0) +
    (if containsCI "pix_key" c then 10 else 0) +
    (if containsCI "amount" c then 5 else 0) +
    (if containsCI "status" c || containsCI "transaction_status" c then 10 else 0)
  else 0

/-- The PIX migrations loop (lines 228-261): `open` unprotected. -/
def pixMigScan : List SrcFile → Except Unit Nat
  | [] => .ok 0
  | f :: rest =>
    match f.content with
    | none => .error ()
    | some c => (pixMigScan rest).map (pixMigFileScore c + ·)

def pixMigPart : Option (List SrcFile) → Except Unit Nat
  | none => .ok 0
  | some migs => pixMigScan migs

/-- `pix_patterns['transaction_fields']`: `end[_\s]?to[_\s]?end[_\s]?id`,
`transaction[_\s]?id`, `pix[_\s]?key`, `descricao`. -/
def pixImplCheck (c : String) : Bool :=
  anyAltCI (expandParts [["end"], optUnd, ["to"], optUnd, ["end"], optUnd, ["id"]]) c ||
  anyAltCI (expandParts [["transaction"], optUnd, ["id"]]) c ||
  anyAltCI (expandParts [["pix"], optUnd, ["key"]]) c ||
  containsCI "descricao" c

/-- `pix_patterns['security_measures']`:
`double[_\s]?auth|autentica[cç][ãa]o[_\s]?dupla`, `biometric|biometria`,
`rate[_\s]?limit`, `fraud[_\s]?detection`. -/
def pixSecurityCheck (c : String) : Bool :=
  (anyAltCI (expandParts [["double"], optUnd, ["auth"]]) c ||
   anyAltCI (expandParts [["autentica"], ["c", "ç"], ["ã", "a"], ["o"], optUnd,
     ["dupla"]]) c) ||
  (containsCI "biometric" c || containsCI "biometria" c) ||
  anyAltCI (expandParts [["rate"], optUnd, ["limit"]]) c ||
  anyAltCI (expandParts [["fraud"], optUnd, ["detection"]]) c

/-- `pix_patterns['key_types']`: `cpf|cnpj`, `email`, `phone|telefone`,
`random[_\s]?key`. -/
def pixKeyTypesCheck (c : String) : Bool :=
  (containsCI "cpf" c || containsCI "cnpj" c) ||
  containsCI "email" c ||
  (containsCI "phone" c || containsCI "telefone" c) ||
  anyAltCI (expandParts [["random"], optUnd, ["key"]]) c

/-- `api_patterns` (lines 309-314), searched via `_search_in_code` (raw
content, `re.IGNORECASE`, protected loop). -/
def pixEndpointsCheck (c : String) : Bool :=
  containsCI "/api/v1/pix/" c || containsCI "pix/transfer" c ||
  containsCI "pix/keys" c || containsCI "pix/qrcode" c

def pixImplFound (t : AegisTree) : Bool := flagAny pixImplCheck (codeFiles t)

def pixSecurityFound (t : AegisTree) : Bool := flagAny pixSecurityCheck (codeFiles t)

def pixKeyTypesFound (t : AegisTree) : Bool := flagAny pixKeyTypesCheck (codeFiles t)

def pixEndpointsFound (t : AegisTree) : Bool := flagAny pixEndpointsCheck (codeFiles t)

def pixScoreOf (t : AegisTree) (migScore : Nat) : Nat :=
  migScore + (if pixImplFound t then 20 else 0) +
  (if pixSecurityFound t then 15 else 0) +
  (if pixKeyTypesFound t then 10 else 0) +
  (if pixEndpointsFound t then 5 else 0)

def pixIssuesOf (t : AegisTree) : List String :=
  (if pixImplFound t then [] else ["Missing PIX transaction implementation"]) ++
  (if pixSecurityFound t then [] else ["Missing PIX security measures"])

def pixRecsOf (t : AegisTree) : List String :=
  (if pixKeyTypesFound t then []
   else ["Implement PIX key type validation (CPF, CNPJ, email, phone)"]) ++
  (if pixEndpointsFound t then []
   else ["Create PIX API endpoints following BCB patterns"])

/-- `validate_pix_compliance` (lines 191-331). -/
def validatePixCompliance (t : AegisTree) (r : AegisResults) :
    Except Unit AegisResults :=
  (pixMigPart t.migrations).map fun migScore =>
    let score := pixScoreOf t migScore
    { r with
      checksPerformed := r.checksPerformed ++ ["pix"],
      pix := ⟨score, r.pix.issues ++ pixIssuesOf t⟩,
      recommendations := r.recommendations ++ pixRecsOf t,
      warnings := r.warnings ++
        (if score < 70 then
          ["PIX compliance score: " ++ toString score ++ "% (target: 70%+)"]
        else []) }

/-! ### Open Banking category (lines 333-437) -/

/-- `ob_patterns['consent']`: `consents?`, `scope`, `expiration`. -/
def obConsentCheck (c : String) : Bool :=
  (containsCI "consent" c || containsCI "consents" c) ||
  containsCI "scope" c || containsCI "expiration" c

/-- `ob_patterns['customer']`: `customer[_\s]?data`, `personal[_\s]?data`,
`identifica[cç][ãa]o`. -/
def obCustomerCheck (c : String) : Bool :=
  anyAltCI (expandParts [["customer"], optUnd, ["data"]]) c ||
  anyAltCI (expandParts [["personal"], optUnd, ["data"]]) c ||
  anyAltCI (expandParts [["identifica"], ["c", "ç"], ["ã", "a"], ["o"]]) c

/-- `ob_patterns['accounts']`: `accounts?`, `balance`, `transactions`. -/
def obAccountsCheck (c : String) : Bool :=
  (containsCI "account" c || containsCI "accounts" c) ||
  containsCI "balance" c || containsCI "transactions" c

/-- `ob_patterns['security']`: `oauth|oauth2`, `token`, `scope`,
`redirect[_\s]?uri`. -/
def obSecurityCheck (c : String) : Bool :=
  (containsCI "oauth" c || containsCI "oauth2" c) ||
  containsCI "token" c || containsCI "scope" c ||
  anyAltCI (expandParts [["redirect"], optUnd, ["uri"]]) c

/-- `ob_docs` (lines 422-425). -/
def obDocs : List String :=
  ["openbanking.md", "open_banking.md", "docs/openbanking/", "openbanking_spec.md"]

def obConsentFound (t : AegisTree) : Bool := flagAny obConsentCheck (codeFiles t)

def obCustomerFound (t : AegisTree) : Bool := flagAny obCustomerCheck (codeFiles t)

def obAccountsFound (t : AegisTree) : Bool := flagAny obAccountsCheck (codeFiles t)

def obSecurityFound (t : AegisTree) : Bool := flagAny obSecurityCheck (codeFiles t)

def obDocFound (t : AegisTree) : Bool := obDocs.any fun d => t.existingPaths.contains d

def obScoreOf (t : AegisTree) : Nat :=
  (if obConsentFound t then 25 else 0) + (if obCustomerFound t then 20 else 0) +
  (if obAccountsFound t then 20 else 0) + (if obSecurityFound t then 25 else 0) +
  (if obDocFound t then 10 else 0)

def obIssuesOf (t : AegisTree) : List String :=
  (if obConsentFound t then [] else ["Missing Open Banking consent API"]) ++
  (if obSecurityFound t then [] else ["Missing Open Banking security implementation"])

def obRecsOf (t : AegisTree) : List String :=
  (if obCustomerFound t then [] else ["Implement Open Banking customer data endpoints"]) ++
  (if obAccountsFound t then [] else ["Implement Open Banking accounts endpoints"]) ++
  (if obDocFound t then [] else ["Create Open Banking implementation documentation"])

/-- `validate_openbanking_compliance` (lines 333-437); no migrations loop,
so this one cannot raise. -/
def validateOpenbankingCompliance (t : AegisTree) (r : AegisResults) : AegisResults :=
  let score := obScoreOf t
  { r with
    checksPerformed := r.checksPerformed ++ ["openbanking"],
    openbanking := ⟨score, r.openbanking.issues ++ obIssuesOf t⟩,
    recommendations := r.recommendations ++ obRecsOf t,
    warnings := r.warnings ++
      (if score < 70 then
        ["Open Banking compliance score: " ++ toString score ++ "% (target: 70%+)"]
      else []) }

/-! ### Brazilian security category (lines 439-529) -/

/-- `security_patterns['encryption']`: `aes[-_]?256`, `tls[_\s]?1\.3`,
`encrypt`. -/
def secEncryptionCheck (c : String) : Bool :=
  anyAltCI (expandParts [["aes"], optDash, ["256"]]) c ||
  anyAltCI (expandParts [["tls"], optUnd, ["1.3"]]) c ||
  containsCI "encrypt" c

/-- `security_patterns['audit']`: `audit[_\s]?trail`, `log[_\s]?access`,
`audit[_\s]?log`. -/
def secAuditCheck (c : String) : Bool :=
  anyAltCI (expandParts [["audit"], optUnd, ["trail"]]) c ||
  anyAltCI (expandParts [["log"], optUnd, ["access"]]) c ||
  anyAltCI (expandParts [["audit"], optUnd, ["log"]]) c

/-- `security_patterns['access_control']`: `role[_\s]?based`,
`multi[_\s]?factor`, `2fa|two[_\s]?factor`. -/
def secAccessCheck (c : String) : Bool :=
  anyAltCI (expandParts [["role"], optUnd, ["based"]]) c ||
  anyAltCI (expandParts [["multi"], optUnd, ["factor"]]) c ||
  (containsCI "2fa" c || anyAltCI (expandParts [["two"], optUnd, ["factor"]]) c)

/-- `security_patterns['data_protection']`: `data[_\s]?masking`,
`pseudonymiza[cç][ãa]o`, `anonymiza[cç][ãa]o`. -/
def secDataProtCheck (c : String) : Bool :=
  anyAltCI (expandParts [["data"], optUnd, ["masking"]]) c ||
  anyAltCI (expandParts [["pseudonymiza"], ["c", "ç"], ["ã", "a"], ["o"]]) c ||
  anyAltCI (expandParts [["anonymiza"], ["c", "ç"], ["ã", "a"], ["o"]]) c

def secEncryptionFound (t : AegisTree) : Bool := flagAny secEncryptionCheck (codeFiles t)

def secAuditFound (t : AegisTree) : Bool := flagAny secAuditCheck (codeFiles t)

def secAccessFound (t : AegisTree) : Bool := flagAny secAccessCheck (codeFiles t)

def secDataProtFound (t : AegisTree) : Bool := flagAny secDataProtCheck (codeFiles t)

def securityScoreOf (t : AegisTree) : Nat :=
  (if secEncryptionFound t then 25 else 0) + (if secAuditFound t then 25 else 0) +
  (if secAccessFound t then 25 else 0) + (if secDataProtFound t then 25 else 0)

def securityIssuesOf (t : AegisTree) : List String :=
  (if secEncryptionFound t then [] else ["Missing encryption implementation"]) ++
  (if secAuditFound t then [] else ["Missing audit trail implementation"]) ++
  (if secAccessFound t then [] else ["Missing access control implementation"])

/-- `validate_brazilian_security` (lines 439-529). -/
def validateBrazilianSecurity (t : AegisTree) (r : AegisResults) : AegisResults :=
  let score := securityScoreOf t
  { r with
    checksPerformed := r.checksPerformed ++ ["security"],
    security := ⟨score, r.security.issues ++ securityIssuesOf t⟩,
    recommendations := r.recommendations ++
      (if secDataProtFound t then []
       else ["Implement data protection measures (masking, anonymization)"]),
    warnings := r.warnings ++
      (if score < 70 then
        ["Security compliance score: " ++ toString score ++ "% (target: 70%+)"]
      else []) }

/-! ### Overall score, validity and driver (lines 41-59, 572-586, 633-650) -/

/-- The validity policy of `_calculate_overall_score` (lines 584-586):
`valid` is set to `False` exactly when the overall score is below 70. -/
def validOfScore (score : Nat) : Bool := if score < 70 then false else true

/-- `main` (line 650): `sys.exit(0 if results['valid'] else 1)`. -/
def exitOfValid (b : Bool) : Nat := if b then 0 else 1

/-- `_calculate_overall_score` (lines 572-586): mean (integer floor
division) over the categories with a nonzero score, 0 when all are zero. -/
def calculateOverallScore (r : AegisResults) : AegisResults :=
  let scores :=
    [r.lgpd.score, r.pix.score, r.openbanking.score, r.security.score].filter
      (fun s => 0 < s)
  let cs := if scores.isEmpty then 0 else scores.sum / scores.length
  { r with complianceScore := cs, valid := if cs < 70 then false else r.valid }

/-- One iteration of the `for check in checks` dispatch (lines 48-56);
unknown names fall through. -/
def runCheck (t : AegisTree) (r : AegisResults) : String → Except Unit AegisResults
  | "lgpd" => validateLgpdCompliance t r
  | "pix" => validatePixCompliance t r
  | "openbanking" => .ok (validateOpenbankingCompliance t r)
  | "security" => .ok (validateBrazilianSecurity t r)
  | _ => .ok r

def runChecks (t : AegisTree) : List String → AegisResults → Except Unit AegisResults
  | [], r => .ok r
  | c :: cs, r => (runCheck t r c).bind (runChecks t cs)

/-- `validate_all` (lines 41-59): an empty/absent check list defaults to all
four categories. -/
def validateAll (t : AegisTree) (checks : List String) : Except Unit AegisResults :=
  let cs := if checks.isEmpty then ["lgpd", "pix", "openbanking", "security"] else checks
  (runChecks t cs initResults).map calculateOverallScore

end BCV

namespace Fintech

/-!
## compliance-validator.py (brazilian-fintech-compliance)

`BrazilianComplianceValidator.validate_project`: four accrual categories
(lgpd_compliance, bcb_regulations, data_protection, financial_security)
evaluated by plain lowercase substring search over the concatenated content
of (at most) the first 50 collected source files.
-/

/-- Per-category slot of `self.validation_results`. -/
structure FintechCat where
  score : Nat
  issues : List String
  recommendations : List String
deriving Repr, DecidableEq

/-- `self.validation_results` after a successful validation. -/
structure FintechResults where
  lgpdCompliance : FintechCat
  bcbRegulations : FintechCat
  dataProtection : FintechCat
  financialSecurity : FintechCat
  overallScore : Nat
deriving Repr, DecidableEq

/-- `_analyze_files_content` (lines 330-340): only the first 50 collected
files contribute content; an unreadable file is skipped (bare `except`) but
still consumes one of the 50 slots.  The source lowercases each content
here and `_check_pattern_presence` lowers again; in this model lowering
happens once, inside `containsCI`. -/
def analyzeAux : List SrcFile → String
  | [] => ""
  | f :: rest =>
    match f.content with
    | some c => (c ++ "\n") ++ analyzeAux rest
    | none => analyzeAux rest

def analyzeFilesContent (files : List SrcFile) : String :=
  analyzeAux (files.take 50)

/-- `_check_pattern_presence` (lines 342-350): any pattern occurs as a
(case-insensitive) substring. -/
def checkPatternPresence (content : String) (patterns : List String) : Bool :=
  patterns.any fun p => containsCI p content

/-- `self.lgpd_patterns['consent_management']` (lines 24-27). -/
def consentManagementPatterns : List String :=
  ["consent", "consentimento", "privacy", "privacidade",
   "data_subject", "titular_dados", "user_rights", "direitos_titular"]

/-- `self.lgpd_patterns['data_minimization']` (lines 28-31). -/
def dataMinimizationPatterns : List String :=
  ["data_minimization", "minimizacao_dados", "only_necessary",
   "purpose_limitation", "limitacao_finalidade"]

/-- `self.lgpd_patterns['retention_policies']` (lines 32-35). -/
def retentionPoliciesPatterns : List String :=
  ["retention", "retencao", "data_retention", "politica_retentao",
   "data_deletion", "exclusao_dados", "right_to_be_forgotten"]

/-- `self.lgpd_patterns['security_measures']` (lines 36-39). -/
def securityMeasuresPatterns : List String :=
  ["encryption", "criptografia", "access_control", "controle_acesso",
   "audit_logging", "registro_auditoria", "security", "seguranca"]

/-- `self.bcb_patterns['pix_compliance']` (lines 44-48). -/
def pixCompliancePatterns : List String :=
  ["pix", "instant_payment", "pagamento_instantaneo",
   "transaction_limits", "limites_transacao",
   "fraud_detection", "detecao_fraude", "circular_4015"]

/-- `self.bcb_patterns['open_banking']` (lines 49-53). -/
def openBankingPatterns : List String :=
  ["open_banking", "banco_aberto", "api_security",
   "oauth2", "rate_limiting", "api_documentation", "circular_4842"]

/-- `self.bcb_patterns['transaction_logging']` (lines 54-58).  (The fourth
group, `availability_requirements`, is declared in the source but never
consulted by any validation method.) -/
def transactionLoggingPatterns : List String :=
  ["transaction_log", "registro_transacao", "audit_trail",
   "financial_audit", "auditoria_financeira",
   "5_year_retention", "retencao_5_anos"]

/-- `self.security_patterns['authentication']` (lines 68-71). -/
def authenticationPatterns : List String :=
  ["mfa", "multi_factor", "biometric", "biometria",
   "device_trust", "confianca_dispositivo", "session_management"]

/-- `self.security_patterns['encryption']` (lines 72-75). -/
def encryptionPatterns : List String :=
  ["aes-256", "tls_1.3", "end_to_end_encryption",
   "data_encryption", "criptografia_dados"]

/-- `self.security_patterns['fraud_prevention']` (lines 76-79).  (The
`audit_logging` group is declared but never consulted.) -/
def fraudPreventionPatterns : List String :=
  ["fraud_detection", "behavioral_analysis", "risk_scoring",
   "anomaly_detection", "transaction_monitoring"]

/-- `_validate_lgpd_compliance` (lines 132-190). -/
def validateLgpdCompliance (content : String) : FintechCat :=
  let consent := checkPatternPresence content consentManagementPatterns
  let minimization := checkPatternPresence content dataMinimizationPatterns
  let retention := checkPatternPresence content retentionPoliciesPatterns
  let security := checkPatternPresence content securityMeasuresPatterns
  { score := (if consent then 25 else 0) + (if minimization then 20 else 0) +
      (if retention then 25 else 0) + (if security then 30 else 0),
    issues :=
      (if consent then []
       else ["Consent management system not found - LGPD Art. 7 requires explicit consent"]) ++
      (if minimization then []
       else ["Data minimization principles not implemented - LGPD Art. 6"]) ++
      (if retention then []
       else ["Data retention policies not defined - LGPD Art. 15"]) ++
      (if security then []
       else ["Security measures not properly implemented - LGPD Art. 46"]),
    recommendations :=
      (if consent then []
       else ["Implement consent collection, recording, and management system"]) ++
      (if minimization then []
       else ["Implement data minimization and purpose limitation"]) ++
      (if retention then []
       else ["Define and implement data retention and deletion policies"]) ++
      (if security then []
       else ["Implement appropriate technical and organizational security measures"]) }

/-- `_validate_bcb_regulations` (lines 192-236). -/
def validateBcbRegulations (content : String) : FintechCat :=
  let pix := checkPatternPresence content pixCompliancePatterns
  let openBanking := checkPatternPresence content openBankingPatterns
  let logging := checkPatternPresence content transactionLoggingPatterns
  { score := (if pix then 35 else 0) + (if openBanking then 30 else 0) +
      (if logging then 35 else 0),
    issues :=
      (if pix then [] else ["PIX system not compliant with BCB Circular No 4.015"]) ++
      (if openBanking then []
       else ["Open Banking API not compliant with BCB Circular No 4.842"]) ++
      (if logging then [] else ["Financial transaction logging not implemented"]),
    recommendations :=
      (if pix then []
       else ["Implement PIX transaction limits, fraud detection, and logging"]) ++
      (if openBanking then []
       else ["Implement API security, documentation, and data sharing standards"]) ++
      (if logging then []
       else ["Implement 5-year transaction logging and audit trails"]) }

/-- `_validate_data_protection` (lines 238-282). -/
def validateDataProtection (content : String) : FintechCat :=
  let encryption := checkPatternPresence content encryptionPatterns
  let accessControl := checkPatternPresence content
    ["access_control", "controle_acesso", "authorization", "role_based"]
  let audit := checkPatternPresence content
    ["audit", "audit_log", "logging", "registro_auditoria"]
  { score := (if encryption then 40 else 0) + (if accessControl then 30 else 0) +
      (if audit then 30 else 0),
    issues :=
      (if encryption then [] else ["Data encryption not properly implemented"]) ++
      (if accessControl then [] else ["Access control system not implemented"]) ++
      (if audit then [] else ["Audit logging system not implemented"]),
    recommendations :=
      (if encryption then []
       else ["Implement AES-256 encryption and TLS 1.3 for data in transit"]) ++
      (if accessControl then []
       else ["Implement role-based access control with audit logging"]) ++
      (if audit then []
       else ["Implement comprehensive audit logging for all data access"]) }

/-- `_validate_financial_security` (lines 284-328). -/
def validateFinancialSecurity (content : String) : FintechCat :=
  let auth := checkPatternPresence content authenticationPatterns
  let fraud := checkPatternPresence content fraudPreventionPatterns
  let monitoring := checkPatternPresence content
    ["security_monitoring", "intrusion_detection", "security_events"]
  { score := (if auth then 30 else 0) + (if fraud then 35 else 0) +
      (if monitoring then 35 else 0),
    issues :=
      (if auth then [] else ["Multi-factor authentication not implemented"]) ++
      (if fraud then [] else ["Fraud detection system not implemented"]) ++
      (if monitoring then [] else ["Security monitoring not implemented"]),
    recommendations :=
      (if auth then []
       else ["Implement MFA, biometric authentication, and device trust"]) ++
      (if fraud then []
       else ["Implement real-time fraud detection and behavioral analysis"]) ++
      (if monitoring then []
       else ["Implement 24/7 security monitoring and incident response"]) }

/-- `_calculate_overall_score` (lines 352-361): integer floor division of
the sum of all four category scores by 4. -/
def calculateOverallScore (a b c d : Nat) : Nat := (a + b + c + d) / 4

/-- `validate_project` (lines 86-113).  `pathExists` is the result of
`project_path.exists()`; when false the method returns an error dict before
collecting or scanning anything.  `files` is the collected source-file
list. -/
def validateProject (pathExists : Bool) (path : String) (files : List SrcFile) :
    Except String FintechResults :=
  if pathExists then
    let content := analyzeFilesContent files
    let lgpd := validateLgpdCompliance content
    let bcb := validateBcbRegulations content
    let dp := validateDataProtection content
    let fs := validateFinancialSecurity content
    .ok { lgpdCompliance := lgpd, bcbRegulations := bcb, dataProtection := dp,
          financialSecurity := fs,
          overallScore := calculateOverallScore lgpd.score bcb.score dp.score fs.score }
  else
    .error ("Project path not found: " ++ path)

/-- `main` (lines 424-447): an error dict exits 1; otherwise the three-tier
exit policy `0` for score ≥ 80, `1` for score ≥ 60, else `2`. -/
def mainExitCode : Except String FintechResults → Nat
  | .error _ => 1
  | .ok r =>
    if 80 ≤ r.overallScore then 0
    else if 60 ≤ r.overallScore then 1
    else 2

end Fintech

namespace Perf

/-!
## performance_audit.py (aegis-architect)

`PerformanceAuditor`: six deduction categories, each starting at 100,
subtracting a fixed weight for each missing (or, for the query
anti-patterns, present) signature, clamped below at 0 by `max(0, score)`.
-/

/-- A file with its extension, as enumerated by
`self.directory.rglob(f'*.{ext}')`. -/
structure PerfFile where
  ext : String
  content : Option String
deriving Repr, DecidableEq

/-- The part of the file tree the auditor reads.  `viteConfig = none` models
a missing `vite.config.ts`; `some none` one that exists but whose read
raises; `migrations = none` a missing `supabase/` or
`supabase/migrations/` directory. -/
structure PerfTree where
  files : List PerfFile
  viteConfig : Option (Option String)
  migrations : Option (List SrcFile)
deriving Repr, DecidableEq

/-- `_search_in_files` (lines 426-441): protected loop over the files with
the given extensions.  The source collects the matching paths; every caller
uses the list only for truthiness, modelled as `Bool`. -/
def searchInFiles (t : PerfTree) (check : String → Bool) (exts : List String) : Bool :=
  t.files.any fun f =>
    exts.contains f.ext &&
      match f.content with
      | some c => check c
      | none => false

/-- Category slot: score, issues, recommendations. -/
structure CatRIR where
  score : Int
  issues : List String
  recommendations : List String
deriving Repr, DecidableEq

/-! ### Voice performance (lines 65-112) -/

/-- `optimization_patterns['preload_models']`: `preload|precache`. -/
def preloadCheck (c : String) : Bool :=
  containsCI "preload" c || containsCI "precache" c

/-- `optimization_patterns['web_workers']`:
`web[\s_-]?worker|worker[\s_-]?thread`. -/
def webWorkersCheck (c : String) : Bool :=
  anyAltCI (expandParts [["web"], optUndDash, ["worker"]]) c ||
  anyAltCI (expandParts [["worker"], optUndDash, ["thread"]]) c

/-- `optimization_patterns['caching']`: `cache.*voice|voice.*cache`. -/
def voiceCachingCheck (c : String) : Bool :=
  orderedCI ["cache", "voice"] c || orderedCI ["voice", "cache"] c

/-- `optimization_patterns['batching']`: `batch.*voice|voice.*batch`. -/
def voiceBatchingCheck (c : String) : Bool :=
  orderedCI ["batch", "voice"] c || orderedCI ["voice", "batch"] c

/-- `async_patterns` (lines 89-93). -/
def voiceAsyncCheck (c : String) : Bool :=
  (orderedCI ["async", "voice"] c || orderedCI ["voice", "async"] c) ||
  (orderedCI ["await", "voice"] c || orderedCI ["voice", "await"] c) ||
  (orderedCI ["promise", "voice"] c || orderedCI ["voice", "promise"] c)

/-- Line 101: `500ms|<.*500.*ms|voice.*response.*time`. -/
def voicePerfCommentCheck (c : String) : Bool :=
  containsCI "500ms" c || orderedCI ["<", "500", "ms"] c ||
  orderedCI ["voice", "response", "time"] c

/-- `audit_voice_performance` (lines 65-112). -/
def auditVoicePerformance (t : PerfTree) : CatRIR :=
  let f1 := searchInFiles t preloadCheck ["ts", "tsx", "js"]
  let f2 := searchInFiles t webWorkersCheck ["ts", "tsx", "js"]
  let f3 := searchInFiles t voiceCachingCheck ["ts", "tsx", "js"]
  let f4 := searchInFiles t voiceBatchingCheck ["ts", "tsx", "js"]
  let asyncOk := searchInFiles t voiceAsyncCheck ["ts", "tsx"]
  let comments := searchInFiles t voicePerfCommentCheck ["ts", "tsx", "md"]
  let score : Int := 100 - (if f1 then 0 else 15) - (if f2 then 0 else 15) -
    (if f3 then 0 else 15) - (if f4 then 0 else 15) -
    (if asyncOk then 0 else 20) - (if comments then 0 else 10)
  { score := max 0 score,
    issues :=
      (if f1 then [] else ["Missing preload models for voice processing"]) ++
      (if f2 then [] else ["Missing web workers for voice processing"]) ++
      (if f3 then [] else ["Missing caching for voice processing"]) ++
      (if f4 then [] else ["Missing batching for voice processing"]) ++
      (if asyncOk then [] else ["Voice processing not properly asynchronous"]),
    recommendations :=
      (if f1 then [] else ["Implement preload models to improve voice response times"]) ++
      (if f2 then [] else ["Implement web workers to improve voice response times"]) ++
      (if f3 then [] else ["Implement caching to improve voice response times"]) ++
      (if f4 then [] else ["Implement batching to improve voice response times"]) ++
      (if asyncOk then [] else ["Ensure voice processing is non-blocking with async/await"]) ++
      (if comments then [] else ["Document voice response time targets (<500ms)"]) }

/-! ### Bundle optimization (lines 114-172) -/

/-- `optimization_features['code_splitting']`:
`codeSplitting|splitVendorChunkPlugin`. -/
def viteCodeSplittingCheck (c : String) : Bool :=
  containsCI "codeSplitting" c || containsCI "splitVendorChunkPlugin" c

/-- `optimization_features['tree_shaking']`: `treeShaking|treeshake`. -/
def viteTreeShakingCheck (c : String) : Bool :=
  containsCI "treeShaking" c || containsCI "treeshake" c

/-- `optimization_features['minification']`: `minify|terser`. -/
def viteMinifyCheck (c : String) : Bool :=
  containsCI "minify" c || containsCI "terser" c

/-- `optimization_features['asset_optimization']`: `asset|assetInlineLimit`. -/
def viteAssetCheck (c : String) : Bool :=
  containsCI "asset" c || containsCI "assetInlineLimit" c

/-- `lazy_patterns` (lines 148-153): `lazy\s*\(`, `dynamic\s*\(\s*import`,
`Suspense`, `react\.lazy`. -/
def lazyLoadingCheck (c : String) : Bool :=
  chainCI ["lazy", "("] c ||
  chainCI ["dynamic", "(", "import"] c ||
  containsCI "Suspense" c || containsCI "react.lazy" c

/-- Line 161: `bundle[\s_-]?size|webpack[\s_-]?bundle|analyze`. -/
def bundleAnalysisCheck (c : String) : Bool :=
  anyAltCI (expandParts [["bundle"], optUndDash, ["size"]]) c ||
  anyAltCI (expandParts [["webpack"], optUndDash, ["bundle"]]) c ||
  containsCI "analyze" c

/-- The `vite.config.ts` part of the bundle audit (lines 124-145).  The
`open` (line 126) has no handler, so an unreadable config file aborts the
run.  Returns (deduction, issues, recommendations). -/
def vitePart : Option (Option String) → Except Unit (Int × List String × List String)
  | none =>
    .ok (50, ["No Vite configuration found"],
      ["Set up Vite configuration with optimization features"])
  | some none => .error ()
  | some (some c) =>
    let m1 := viteCodeSplittingCheck c
    let m2 := viteTreeShakingCheck c
    let m3 := viteMinifyCheck c
    let m4 := viteAssetCheck c
    .ok ((if m1 then 0 else 20) + (if m2 then 0 else 20) + (if m3 then 0 else 20) +
        (if m4 then 0 else 20),
      (if m1 then [] else ["Missing code splitting in build configuration"]) ++
      (if m2 then [] else ["Missing tree shaking in build configuration"]) ++
      (if m3 then [] else ["Missing minification in build configuration"]) ++
      (if m4 then [] else ["Missing asset optimization in build configuration"]),
      (if m1 then [] else ["Enable code splitting for smaller bundles"]) ++
      (if m2 then [] else ["Enable tree shaking for smaller bundles"]) ++
      (if m3 then [] else ["Enable minification for smaller bundles"]) ++
      (if m4 then [] else ["Enable asset optimization for smaller bundles"]))

/-- `audit_bundle_optimization` (lines 114-172). -/
def auditBundleOptimization (t : PerfTree) : Except Unit CatRIR :=
  (vitePart t.viteConfig).map fun vp =>
    let lazyOk := searchInFiles t lazyLoadingCheck ["ts", "tsx"]
    let analysis := searchInFiles t bundleAnalysisCheck ["json", "js"]
    let score : Int := 100 - vp.1 - (if lazyOk then 0 else 25) -
      (if analysis then 0 else 15)
    { score := max 0 score,
      issues := vp.2.1 ++
        (if lazyOk then [] else ["No code splitting with lazy loading found"]),
      recommendations := vp.2.2 ++
        (if lazyOk then [] else ["Implement lazy loading for better initial load times"]) ++
        (if analysis then [] else ["Set up bundle size analysis and monitoring"]) }

/-! ### Database performance (lines 174-236) -/

/-- The migrations index loop (lines 189-196): unprotected `open`,
case-sensitive `in` checks on the raw content, `break` on the first file
declaring an index. -/
def findIndexInMigrations : List SrcFile → Except Unit Bool
  | [] => .ok false
  | f :: rest =>
    match f.content with
    | none => .error ()
    | some c =>
      if containsCS "CREATE INDEX" c || containsCS "CREATE UNIQUE INDEX" c then .ok true
      else findIndexInMigrations rest

/-- `\.select\(\s*["\']\*["\']` (line 207): a quoted star after
`.select(` and optional whitespace. -/
def selectStarCheck (c : String) : Bool :=
  ["\"*\"", "\"*\x27", "\x27*\"", "\x27*\x27"].any fun q => chainCI [".select(", q] c

/-- `fetch.*all` (line 208). -/
def fetchAllCheck (c : String) : Bool := orderedCI ["fetch", "all"] c

/-- `N\+1.*query` (line 209). -/
def nPlusOneCheck (c : String) : Bool := orderedCI ["N+1", "query"] c

/-- `cache_patterns` (lines 219-224). -/
def queryCacheCheck (c : String) : Bool :=
  orderedCI ["useQuery", "staleTime"] c ||
  orderedCI ["queryClient", "setQueryData"] c ||
  orderedCI ["supabase", "cache"] c ||
  orderedCI ["react", "query", "cache"] c

/-- `audit_database_performance` (lines 174-236).  The query anti-pattern
rules deduct when the pattern IS found. -/
def auditDatabasePerformance (t : PerfTree) : Except Unit CatRIR :=
  (match t.migrations with
   | none => Except.ok (none : Option Bool)
   | some migs => (findIndexInMigrations migs).map some).map fun idx =>
    let q1 := searchInFiles t selectStarCheck ["ts", "tsx", "js"]
    let q2 := searchInFiles t fetchAllCheck ["ts", "tsx", "js"]
    let q3 := searchInFiles t nPlusOneCheck ["ts", "tsx", "js"]
    let cacheOk := searchInFiles t queryCacheCheck ["ts", "tsx"]
    let idxDeduction : Int := match idx with
      | none => 0
      | some true => 0
      | some false => 30
    let score : Int := 100 - idxDeduction - (if q1 then 20 else 0) -
      (if q2 then 20 else 0) - (if q3 then 20 else 0) - (if cacheOk then 0 else 25)
    { score := max 0 score,
      issues :=
        (if idx = some false then ["No database indexes found in migrations"] else []) ++
        (if q1 then
          ["Potential inefficient query pattern: \\.select\\(\\s*[\"\x27]\\*[\"\x27]"]
         else []) ++
        (if q2 then ["Potential inefficient query pattern: fetch.*all"] else []) ++
        (if q3 then ["Potential inefficient query pattern: N\\+1.*query"] else []),
      recommendations :=
        (if idx = some false then ["Add indexes for frequently queried columns"] else []) ++
        (if q1 then ["Optimize database queries for better performance"] else []) ++
        (if q2 then ["Optimize database queries for better performance"] else []) ++
        (if q3 then ["Optimize database queries for better performance"] else []) ++
        (if cacheOk then [] else ["Implement query result caching for better performance"]) }

/-! ### Real-time performance (lines 238-287) -/

/-- `realtime_patterns` (lines 248-253). -/
def realtimeCheck (c : String) : Bool :=
  orderedCI ["supabase", "channel"] c ||
  (["on(\x27postgres_changes\x27", "on(\x27postgres_changes\"",
    "on(\"postgres_changes\x27", "on(\"postgres_changes\""].any fun p => containsCI p c) ||
  orderedCI ["realtime", "subscribe"] c ||
  containsCI "subscribeToTable" c

/-- Line 264: `channel.*unsubscribe|cleanup.*subscription`. -/
def subCleanupCheck (c : String) : Bool :=
  orderedCI ["channel", "unsubscribe"] c || orderedCI ["cleanup", "subscription"] c

/-- `optimistic_patterns` (lines 271-275). -/
def optimisticCheck (c : String) : Bool :=
  orderedCI ["useMutation", "onSuccess"] c ||
  orderedCI ["optimistic", "update"] c ||
  orderedCI ["queryClient", "invalidateQueries"] c

/-- `audit_realtime_performance` (lines 238-287).  The cleanup rule only
fires when real-time usage was found. -/
def auditRealtimePerformance (t : PerfTree) : CatRIR :=
  let rt := searchInFiles t realtimeCheck ["ts", "tsx"]
  let cleanup := searchInFiles t subCleanupCheck ["ts", "tsx"]
  let optimistic := searchInFiles t optimisticCheck ["ts", "tsx"]
  let score : Int := 100 - (if rt then 0 else 40) -
    (if rt && !cleanup then 20 else 0) - (if optimistic then 0 else 25)
  { score := max 0 score,
    issues := if rt && !cleanup then ["Missing subscription cleanup"] else [],
    recommendations :=
      (if rt then [] else ["Implement real-time synchronization for instant updates"]) ++
      (if rt && !cleanup then ["Ensure real-time subscriptions are properly cleaned up"]
       else []) ++
      (if optimistic then [] else ["Implement optimistic updates for better UX"]) }

/-! ### Mobile optimization (lines 289-343).  Note: every rule of this
category appends only recommendations; its issues list always stays empty. -/

/-- `responsive_patterns` (lines 299-304). -/
def responsiveCheck (c : String) : Bool :=
  (containsCI "responsive" c || containsCI "mobile" c || containsCI "tablet" c) ||
  (containsCI "breakpoint" c || orderedCI ["screen", "size"] c) ||
  (orderedCI ["tailwind", "sm:"] c || containsCI "md:" c || containsCI "lg:" c ||
   containsCI "xl:" c) ||
  orderedCI ["media", "query"] c

/-- `touch_patterns` (lines 315-320). -/
def touchCheck (c : String) : Bool :=
  (containsCI "onClick" c || containsCI "onTouch" c) ||
  orderedCI ["button", "size"] c ||
  orderedCI ["touch", "target"] c ||
  orderedCI ["mobile", "optimized"] c

/-- `mobile_optimizations` (lines 327-331). -/
def mobileOptCheck (c : String) : Bool :=
  (orderedCI ["mobile", "viewport"] c || orderedCI ["viewport", "scale"] c) ||
  (orderedCI ["touch", "action"] c || orderedCI ["user", "select"] c) ||
  (orderedCI ["mobile", "performance"] c || orderedCI ["device", "memory"] c)

/-- `audit_mobile_optimization` (lines 289-343). -/
def auditMobileOptimization (t : PerfTree) : CatRIR :=
  let responsive := searchInFiles t responsiveCheck ["ts", "tsx", "css"]
  let touch := searchInFiles t touchCheck ["ts", "tsx"]
  let mobileOpt := searchInFiles t mobileOptCheck ["tsx", "html", "css"]
  let score : Int := 100 - (if responsive then 0 else 30) -
    (if touch then 0 else 25) - (if mobileOpt then 0 else 20)
  { score := max 0 score,
    issues := [],
    recommendations :=
      (if responsive then [] else ["Implement responsive design for mobile devices"]) ++
      (if touch then [] else ["Ensure buttons and interactive elements are touch-friendly"]) ++
      (if mobileOpt then []
       else ["Add mobile-specific viewport and performance optimizations"]) }

/-! ### Core Web Vitals (lines 345-411).  Like mobile, every rule appends
only recommendations. -/

/-- `monitoring_patterns` (lines 355-360). -/
def vitalsMonitoringCheck (c : String) : Bool :=
  anyAltCI (expandParts [["web"], optDash, ["vitals"]]) c ||
  orderedCI ["performance", "observer"] c ||
  (containsCI "LCP" c || containsCI "INP" c || containsCI "CLS" c) ||
  (orderedCI ["performance", "mark"] c || orderedCI ["performance", "measure"] c)

/-- `image_patterns` (lines 371-376): `next[/\\]image|next/image`,
`lazy.*load.*image|image.*lazy`, `srcset|sizes`, `webp|avif|optimization`. -/
def imageOptCheck (c : String) : Bool :=
  (containsCI "next/image" c || containsCI "next\\image" c) ||
  (orderedCI ["lazy", "load", "image"] c || orderedCI ["image", "lazy"] c) ||
  (containsCI "srcset" c || containsCI "sizes" c) ||
  (containsCI "webp" c || containsCI "avif" c || containsCI "optimization" c)

/-- `font_patterns` (lines 383-388). -/
def fontOptCheck (c : String) : Bool :=
  orderedCI ["font", "display", "swap"] c ||
  orderedCI ["preload", "font"] c ||
  orderedCI ["font", "optimization"] c ||
  orderedCI ["webfont", "loader"] c

/-- `layout_patterns` (lines 395-399). -/
def layoutStabilityCheck (c : String) : Bool :=
  (containsCI "CLS" c || orderedCI ["cumulative", "layout", "shift"] c) ||
  (orderedCI ["layout", "shift"] c || orderedCI ["layout", "stability"] c) ||
  (orderedCI ["animation", "hardware"] c || containsCI "gpu" c)

/-- `audit_core_web_vitals` (lines 345-411). -/
def auditCoreWebVitals (t : PerfTree) : CatRIR :=
  let monitoring := searchInFiles t vitalsMonitoringCheck ["ts", "tsx", "js"]
  let images := searchInFiles t imageOptCheck ["ts", "tsx", "jsx"]
  let fonts := searchInFiles t fontOptCheck ["tsx", "html", "css"]
  let layout := searchInFiles t layoutStabilityCheck ["ts", "tsx", "css"]
  let score : Int := 100 - (if monitoring then 0 else 30) - (if images then 0 else 25) -
    (if fonts then 0 else 20) - (if layout then 0 else 25)
  { score := max 0 score,
    issues := [],
    recommendations :=
      (if monitoring then [] else ["Set up Core Web Vitals monitoring"]) ++
      (if images then [] else ["Optimize images for better LCP"]) ++
      (if fonts then [] else ["Optimize font loading for better performance"]) ++
      (if layout then [] else ["Ensure layout stability to prevent CLS"]) }

/-! ### Overall score and exit policy (lines 413-424, 505-518) -/

/-- `round(x, 1)` applied to the mean of the six scores.  Python applies
banker's rounding to a binary float; exact-half tenths are modelled as
rounding half away from zero, a difference none of the claims below
depends on. -/
def roundTenth (q : ℚ) : ℚ := ((round (10 * q) : ℤ) : ℚ) / 10

/-- `calculate_overall_score` (lines 413-424). -/
def calculateOverallScore (scores : List Int) : ℚ :=
  roundTenth ((scores.sum : ℚ) / (scores.length : ℚ))

/-- `main` (line 518): `sys.exit(0 if results['overall_score'] >= 70 else 1)`. -/
def mainExitCode (overall : ℚ) : Nat := if 70 ≤ overall then 0 else 1

end Perf

namespace Voice

/-!
## voice_performance_analyzer.py (aegis-architect)

Only `calculate_performance_score` (lines 397-440) is needed by the claims:
the score assembly and the fixed step table deriving the estimated voice
response time from the score.
-/

/-- The parts of `self.results` that `calculate_performance_score` reads:
the five `performance_patterns` booleans, the four `brazilian_patterns`
booleans, `optimizations_found` and `issues`. -/
structure AnalyzerState where
  performancePatterns : List Bool
  brazilianPatterns : List Bool
  optimizationsFound : List String
  issues : List String
deriving Repr, DecidableEq

/-- The score assembly (lines 401-421): capped pattern points, optimization
points (only when any were found), a 10-point bonus for an empty issues
list, all capped at 100. -/
def performanceScore (st : AnalyzerState) : ℚ :=
  let perfPart : ℚ := min ((st.performancePatterns.count true : ℚ) * 8) 40
  let brPart : ℚ := min ((st.brazilianPatterns.count true : ℚ) * 7.5) 30
  let optPart : ℚ :=
    if st.optimizationsFound.isEmpty then 0
    else min ((st.optimizationsFound.length : ℚ) * 4) 20
  let bonus : ℚ := if st.issues.isEmpty then 10 else 0
  min (perfPart + brPart + optPart + bonus) 100

/-- The fixed step table (lines 424-433): an ordered `if/elif` chain on the
score, highest lower bound first, first match wins. -/
def voiceResponseTime (score : ℚ) : ℕ :=
  if 90 ≤ score then 150
  else if 80 ≤ score then 180
  else if 70 ≤ score then 220
  else if 60 ≤ score then 280
  else 350

/-- `calculate_performance_score` (lines 397-440): the pair stored into
`results['performance_score']` and `results['voice_response_time']`. -/
def calculatePerformanceScore (st : AnalyzerState) : ℚ × ℕ :=
  let s := performanceScore st
  (s, voiceResponseTime s)

end Voice

/-! ## Supporting lemmas and concrete corpora for the claims -/

theorem lowerStr_append (a b : String) :
    lowerStr (a ++ b) = lowerStr a ++ lowerStr b := by
  simp [lowerStr, String.data_append]

theorem containsCI_append_left {n a : String} (b : String)
    (h : containsCI n a = true) : containsCI n (a ++ b) = true := by
  unfold containsCI at h ⊢
  rw [lowerStr_append]
  exact isSubList_append_left _ h

theorem containsCI_append_right {n b : String} (a : String)
    (h : containsCI n b = true) : containsCI n (a ++ b) = true := by
  unfold containsCI at h ⊢
  rw [lowerStr_append]
  exact isSubList_append_right _ h

/-- A readable file whose content contains the needle case-insensitively. -/
def fileContains (needle : String) (f : SrcFile) : Bool :=
  match f.content with
  | some c => containsCI needle c
  | none => false

theorem flagAny_of_contains {needle : String} {check : String → Bool}
    (hmono : ∀ c, containsCI needle c = true → check c = true)
    {files : List SrcFile} (h : files.any (fileContains needle) = true) :
    flagAny check files = true := by
  simp only [List.any_eq_true] at h
  obtain ⟨f, hf, hc⟩ := h
  simp only [flagAny, List.any_eq_true]
  refine ⟨f, hf, ?_⟩
  cases hfc : f.content with
  | none => simp [fileContains, hfc] at hc
  | some c =>
    simp only [fileContains, hfc] at hc
    simpa using hmono c hc

/-- The tree an aegis-architect tool sees over an empty corpus: no file of
any scanned extension, no `supabase/` directory, no documentation path.
This is also exactly what a **nonexistent** root directory yields, since
`__init__` performs no existence check and `Path.rglob` over a missing
directory produces an empty iterator. -/
def emptyAegisTree : BCV.AegisTree := ⟨[], [], none, []⟩

/-- The empty corpus as the performance auditor sees it. -/
def emptyPerfTree : Perf.PerfTree := ⟨[], none, none⟩

/-! ## Claims -/

/-- **C2.** For every fixed root directory whose file contents are unchanged
between two invocations with the same arguments, the two invocations produce
identical Results — per-category scores, overall score, and
issue/recommendation/warning lists in the same order.  The Result is a
function only of the scanned tree contents and the rule tables (the source
reads no clock and no randomness; the embedding is a pure function of the
tree). -/
theorem C2_results_deterministic :
    (∀ (t1 t2 : BCV.AegisTree) (cs1 cs2 : List String), t1 = t2 → cs1 = cs2 →
      BCV.validateAll t1 cs1 = BCV.validateAll t2 cs2) ∧
    (∀ (e1 e2 : Bool) (p1 p2 : String) (fs1 fs2 : List SrcFile),
      e1 = e2 → p1 = p2 → fs1 = fs2 →
      Fintech.validateProject e1 p1 fs1 = Fintech.validateProject e2 p2 fs2) := by
  constructor
  · intro t1 t2 cs1 cs2 h1 h2
    rw [h1, h2]
  · intro e1 e2 p1 p2 fs1 fs2 h1 h2 h3
    rw [h1, h2, h3]

/-- Witness for C2 at concrete inputs. -/
theorem C2_results_deterministic_witness :
    BCV.validateAll ⟨[], [], none, []⟩ ["lgpd"] =
      BCV.validateAll ⟨[], [], none, []⟩ ["lgpd"] ∧
    Fintech.validateProject true "proj" [⟨some "pix"⟩] =
      Fintech.validateProject true "proj" [⟨some "pix"⟩] :=
  ⟨C2_results_deterministic.1 _ _ _ _ rfl rfl,
   C2_results_deterministic.2 _ _ _ _ _ _ rfl rfl rfl⟩

/-- **C4.** Under the default pass threshold of 70, an overall score of 69
classifies the Result as invalid (exit code 1) and 70 as valid (exit code
0): validity is `score ≥ 70`, not strictly greater.  Holds for the
compliance validator's `valid` flag/exit and the performance auditor's
exit policy. -/
theorem C4_threshold_boundary :
    (BCV.exitOfValid (BCV.validOfScore 69) = 1 ∧
     BCV.exitOfValid (BCV.validOfScore 70) = 0) ∧
    (∀ s : ℕ, BCV.exitOfValid (BCV.validOfScore s) = 0 ↔ 70 ≤ s) ∧
    (∀ r : BCV.AegisResults,
      (BCV.calculateOverallScore r).valid =
        (BCV.validOfScore (BCV.calculateOverallScore r).complianceScore && r.valid)) ∧
    (Perf.mainExitCode 69 = 1 ∧ Perf.mainExitCode 70 = 0) ∧
    (∀ q : ℚ, Perf.mainExitCode q = 0 ↔ 70 ≤ q) := by
  refine ⟨⟨by decide, by decide⟩, ?_, ?_, ⟨by norm_num [Perf.mainExitCode], by norm_num [Perf.mainExitCode]⟩, ?_⟩
  · intro s
    simp only [BCV.validOfScore]
    split_ifs with h <;> simp [BCV.exitOfValid] <;> omega
  · intro r
    simp only [BCV.calculateOverallScore, BCV.validOfScore]
    split_ifs <;> simp
  · intro q
    simp only [Perf.mainExitCode]
    split_ifs with h <;> simp [h]

/-- **C5.** The estimated voice response time is a pure lookup on the
overall performance score via the fixed step table (≥90 → 150 ms, ≥80 →
180 ms, ≥70 → 220 ms, ≥60 → 280 ms, below → 350 ms), evaluated highest
lower bound first, first match wins; it depends on nothing but the score. -/
theorem C5_response_time_step_table :
    (∀ st : Voice.AnalyzerState,
      (Voice.calculatePerformanceScore st).2 =
        Voice.voiceResponseTime (Voice.calculatePerformanceScore st).1) ∧
    (∀ s : ℚ,
      (90 ≤ s → Voice.voiceResponseTime s = 150) ∧
      (80 ≤ s → s < 90 → Voice.voiceResponseTime s = 180) ∧
      (70 ≤ s → s < 80 → Voice.voiceResponseTime s = 220) ∧
      (60 ≤ s → s < 70 → Voice.voiceResponseTime s = 280) ∧
      (s < 60 → Voice.voiceResponseTime s = 350)) := by
  refine ⟨fun st => rfl, fun s => ⟨?_, ?_, ?_, ?_, ?_⟩⟩ <;>
    · intros
      simp only [Voice.voiceResponseTime]
      split_ifs <;> first | rfl | linarith

/-- Witness for C5: the step table evaluated on one score in each band. -/
theorem C5_response_time_step_table_witness :
    ((90:ℚ) ≤ 95 ∧ Voice.voiceResponseTime 95 = 150) ∧
    ((80:ℚ) ≤ 85 ∧ (85:ℚ) < 90 ∧ Voice.voiceResponseTime 85 = 180) ∧
    ((70:ℚ) ≤ 75 ∧ (75:ℚ) < 80 ∧ Voice.voiceResponseTime 75 = 220) ∧
    ((60:ℚ) ≤ 65 ∧ (65:ℚ) < 70 ∧ Voice.voiceResponseTime 65 = 280) ∧
    ((55:ℚ) < 60 ∧ Voice.voiceResponseTime 55 = 350) :=
  ⟨⟨by norm_num, (C5_response_time_step_table.2 95).1 (by norm_num)⟩,
   ⟨by norm_num, by norm_num, (C5_response_time_step_table.2 85).2.1 (by norm_num) (by norm_num)⟩,
   ⟨by norm_num, by norm_num, (C5_response_time_step_table.2 75).2.2.1 (by norm_num) (by norm_num)⟩,
   ⟨by norm_num, by norm_num, (C5_response_time_step_table.2 65).2.2.2.1 (by norm_num) (by norm_num)⟩,
   ⟨by norm_num, (C5_response_time_step_table.2 55).2.2.2.2 (by norm_num)⟩⟩

/-- **C10.** In the brazilian-fintech validator only the first 50 collected
files contribute content to every pattern check: the analyzed content, every
pattern-presence check, and the entire validation result are unchanged when
the file list is truncated to its first 50 elements — files beyond the 50th
are treated exactly as if they did not exist. -/
theorem C10_only_first_fifty_files :
    (∀ files : List SrcFile,
      Fintech.analyzeFilesContent files =
        Fintech.analyzeFilesContent (files.take 50)) ∧
    (∀ (files : List SrcFile) (pats : List String),
      Fintech.checkPatternPresence (Fintech.analyzeFilesContent files) pats =
        Fintech.checkPatternPresence (Fintech.analyzeFilesContent (files.take 50)) pats) ∧
    (∀ (e : Bool) (p : String) (files : List SrcFile),
      Fintech.validateProject e p files =
        Fintech.validateProject e p (files.take 50)) := by
  have key : ∀ files : List SrcFile,
      Fintech.analyzeFilesContent files =
        Fintech.analyzeFilesContent (files.take 50) := by
    intro files
    simp [Fintech.analyzeFilesContent, List.take_take]
  refine ⟨key, fun files pats => by rw [key], fun e p files => ?_⟩
  simp only [Fintech.validateProject]
  rw [key]

theorem lgpdConsentCheck_of_consentimento {c : String}
    (h : containsCI "consentimento" c = true) : BCV.lgpdConsentCheck c = true := by
  simp [BCV.lgpdConsentCheck, h]

theorem analyzeAux_contains {needle : String} {files : List SrcFile}
    (h : files.any (fileContains needle) = true) :
    containsCI needle (Fintech.analyzeAux files) = true := by
  induction files with
  | nil => simp at h
  | cons f rest ih =>
    simp only [List.any_cons, Bool.or_eq_true] at h
    cases hfc : f.content with
    | none =>
      simp only [Fintech.analyzeAux, hfc]
      rcases h with h | h
      · simp [fileContains, hfc] at h
      · exact ih h
    | some c =>
      simp only [Fintech.analyzeAux, hfc]
      rcases h with h | h
      · exact containsCI_append_left _ (containsCI_append_left _
          (by simpa [fileContains, hfc] using h))
      · exact containsCI_append_right _ (ih h)

/-- **C9.** A corpus containing at least one scanned code file whose content
includes the literal substring "consentimento" (in any letter case)
satisfies the consent-management check, which contributes its configured
weight to the LGPD score — 20 in the aegis-architect validator, 25 in the
brazilian-fintech validator — regardless of surrounding content. -/
theorem C9_consentimento_contributes_weight :
    (∀ t : BCV.AegisTree,
      (BCV.codeFiles t).any (fileContains "consentimento") = true →
      BCV.lgpdConsentFound t = true) ∧
    (∀ (t : BCV.AegisTree) (m : ℕ),
      (BCV.codeFiles t).any (fileContains "consentimento") = true →
      BCV.lgpdScoreOf t m =
        m + 20 + (if BCV.lgpdDataMinFound t then 15 else 0) +
          (if BCV.lgpdUserRightsFound t then 15 else 0) +
          (if BCV.lgpdPrivacyFound t then 15 else 0) +
          (if BCV.checkRlsImplementation t then 10 else 0)) ∧
    (∀ (t : BCV.AegisTree) (r : BCV.AegisResults) (m : ℕ),
      BCV.lgpdMigPart t.migrations = .ok m →
      (BCV.validateLgpdCompliance t r).map (fun res => res.lgpd.score) =
        .ok (BCV.lgpdScoreOf t m)) ∧
    (∀ files : List SrcFile,
      (files.take 50).any (fileContains "consentimento") = true →
      Fintech.checkPatternPresence (Fintech.analyzeFilesContent files)
        Fintech.consentManagementPatterns = true ∧
      (Fintech.validateLgpdCompliance (Fintech.analyzeFilesContent files)).score =
        25 + (if Fintech.checkPatternPresence (Fintech.analyzeFilesContent files)
                Fintech.dataMinimizationPatterns then 20 else 0) +
          (if Fintech.checkPatternPresence (Fintech.analyzeFilesContent files)
                Fintech.retentionPoliciesPatterns then 25 else 0) +
          (if Fintech.checkPatternPresence (Fintech.analyzeFilesContent files)
                Fintech.securityMeasuresPatterns then 30 else 0)) := by
  have haegis : ∀ t : BCV.AegisTree,
      (BCV.codeFiles t).any (fileContains "consentimento") = true →
      BCV.lgpdConsentFound t = true := fun t h =>
    flagAny_of_contains (fun c hc => lgpdConsentCheck_of_consentimento hc) h
  have hfin : ∀ files : List SrcFile,
      (files.take 50).any (fileContains "consentimento") = true →
      Fintech.checkPatternPresence (Fintech.analyzeFilesContent files)
        Fintech.consentManagementPatterns = true := by
    intro files h
    have hc : containsCI "consentimento" (Fintech.analyzeFilesContent files) = true :=
      analyzeAux_contains h
    simp [Fintech.checkPatternPresence, Fintech.consentManagementPatterns, hc]
  refine ⟨haegis, ?_, ?_, ?_⟩
  · intro t m h
    simp [BCV.lgpdScoreOf, haegis t h]
  · intro t r m h
    simp [BCV.validateLgpdCompliance, h, Except.map]
  · intro files h
    refine ⟨hfin files h, ?_⟩
    simp [Fintech.validateLgpdCompliance, hfin files h]

/-- Witness for C9: a single `.ts` file whose content is "Consentimento". -/
theorem C9_consentimento_contributes_weight_witness :
    ((BCV.codeFiles ⟨[⟨some "Consentimento"⟩], [], none, []⟩).any
        (fileContains "consentimento") = true ∧
      BCV.lgpdConsentFound ⟨[⟨some "Consentimento"⟩], [], none, []⟩ = true) ∧
    (BCV.lgpdMigPart (none : Option (List SrcFile)) = .ok 0 ∧
      (BCV.validateLgpdCompliance ⟨[⟨some "Consentimento"⟩], [], none, []⟩
          BCV.initResults).map (fun res => res.lgpd.score) =
        .ok (BCV.lgpdScoreOf ⟨[⟨some "Consentimento"⟩], [], none, []⟩ 0)) ∧
    (([⟨some "Consentimento"⟩] : List SrcFile).take 50).any
        (fileContains "consentimento") = true ∧
    Fintech.checkPatternPresence
      (Fintech.analyzeFilesContent [⟨some "Consentimento"⟩])
      Fintech.consentManagementPatterns = true :=
  ⟨⟨by decide,
    C9_consentimento_contributes_weight.1 ⟨[⟨some "Consentimento"⟩], [], none, []⟩
      (by decide)⟩,
   ⟨rfl,
    C9_consentimento_contributes_weight.2.2.1
      ⟨[⟨some "Consentimento"⟩], [], none, []⟩ BCV.initResults 0 rfl⟩,
   by decide,
   (C9_consentimento_contributes_weight.2.2.2 [⟨some "Consentimento"⟩] (by decide)).1⟩

/-- A tree whose `supabase/migrations/` holds one undecodable SQL file. -/
def badMigrationTree : BCV.AegisTree := ⟨[], [], some [⟨none⟩], []⟩

/-- **C6 (code bug).** The spec says a file that fails to decode is silently
skipped and no exception escapes the scanning phase.  The `*.ts`/`*.tsx`
loops do skip unreadable files (second conjunct), but the SQL migrations
loops of `validate_lgpd_compliance`/`validate_pix_compliance` open files
with no exception handler: one undecodable migration file aborts the whole
run before any report is printed (first conjunct). -/
theorem C6_undecodable_migration_aborts :
    BCV.validateAll badMigrationTree [] = .error () ∧
    (∀ (check : String → Bool) (files : List SrcFile),
      flagAny check (files ++ [⟨none⟩]) = flagAny check files) := by
  refine ⟨by rfl, ?_⟩
  intro check files
  simp [flagAny]

/-- **C7 counterexample.** The claim says that for a nonexistent root the
tool fails fast with no scan attempted and no report of scores.  The
aegis-architect validator performs no existence check: over the corpus a
nonexistent root yields (`emptyAegisTree`), it still runs all four category
evaluations (`checks_performed` is not empty) and produces a full report. -/
theorem C7_counterexample_scan_attempted :
    (BCV.validateAll emptyAegisTree []).map (fun r => r.checksPerformed) =
      .ok ["lgpd", "pix", "openbanking", "security"] ∧
    (["lgpd", "pix", "openbanking", "security"] : List String) ≠ [] := by
  refine ⟨by rfl, by decide⟩

/-- **C7 (amended).** Only the brazilian-fintech validator fails fast on a
nonexistent root: a single error value, exit code 1, no scan performed.
The aegis-architect validator scans the missing root as an empty corpus,
performs every category evaluation, produces a full report, and exits 1
only because the all-zero score falls below the threshold. -/
theorem C7_amended_fail_fast_policy :
    (∀ (p : String) (files : List SrcFile),
      Fintech.validateProject false p files =
        .error ("Project path not found: " ++ p) ∧
      Fintech.mainExitCode (Fintech.validateProject false p files) = 1) ∧
    ((BCV.validateAll emptyAegisTree []).map (fun r => r.checksPerformed) =
      .ok ["lgpd", "pix", "openbanking", "security"]) ∧
    ((BCV.validateAll emptyAegisTree []).map
        (fun r => BCV.exitOfValid r.valid) = .ok 1) := by
  refine ⟨fun p files => ⟨rfl, rfl⟩, by rfl, by rfl⟩

/-- Five migration files that each match the consent (+10), retention (+10)
and audit-timestamp (+5) checks of the LGPD migrations loop. -/
def overflowTree : BCV.AegisTree :=
  ⟨[], [],
   some (List.replicate 5 ⟨some "consentimento retention created_at updated_at"⟩),
   []⟩

/-- **C1 counterexample.** The claim says category scores never exceed 100
after aggregation.  The aegis-architect LGPD migrations checks accrue once
per matching migration file with no clamp: five migration files each
containing "consentimento", "retention", "created_at" and "updated_at"
give an LGPD category score of 125. -/
theorem C1_counterexample_lgpd_exceeds_100 :
    (BCV.validateLgpdCompliance overflowTree BCV.initResults).map
      (fun r => r.lgpd.score) = .ok 125 ∧ 100 < 125 := by
  exact ⟨by rfl, by norm_num⟩

theorem score_clamp_bounds {s : ℤ} (hs : s ≤ 100) :
    0 ≤ max 0 s ∧ max 0 s ≤ 100 := by omega

theorem vitePart_deduction_nonneg {cfg : Option (Option String)}
    {vp : ℤ × List String × List String} (h : Perf.vitePart cfg = .ok vp) :
    0 ≤ vp.1 := by
  match cfg with
  | none => simp only [Perf.vitePart, Except.ok.injEq] at h; rw [← h]; norm_num
  | some none => simp [Perf.vitePart] at h
  | some (some c) =>
    simp only [Perf.vitePart, Except.ok.injEq] at h
    rw [← h]
    dsimp only
    split_ifs <;> norm_num

/-- **C1 (amended).** Deduction-policy categories (the six performance-audit
categories) always lie in [0, 100]: they start at 100, subtract nonnegative
weights and are clamped below at 0 by `max(0, ·)`.  The accrual categories
of the brazilian-fintech validator and the aegis openbanking/security
categories never exceed 100 (their weights sum to at most 100 and each
fires once), and accrual scores are nonnegative by construction.  But the
aegis lgpd and pix categories accrue their migration checks once per
matching migration file with no clamp and can exceed 100 (see the
counterexample). -/
theorem C1_amended_score_bounds :
    (∀ t : Perf.PerfTree,
      0 ≤ (Perf.auditVoicePerformance t).score ∧
        (Perf.auditVoicePerformance t).score ≤ 100) ∧
    (∀ (t : Perf.PerfTree) (r : Perf.CatRIR),
      Perf.auditBundleOptimization t = .ok r → 0 ≤ r.score ∧ r.score ≤ 100) ∧
    (∀ (t : Perf.PerfTree) (r : Perf.CatRIR),
      Perf.auditDatabasePerformance t = .ok r → 0 ≤ r.score ∧ r.score ≤ 100) ∧
    (∀ t : Perf.PerfTree,
      0 ≤ (Perf.auditRealtimePerformance t).score ∧
        (Perf.auditRealtimePerformance t).score ≤ 100) ∧
    (∀ t : Perf.PerfTree,
      0 ≤ (Perf.auditMobileOptimization t).score ∧
        (Perf.auditMobileOptimization t).score ≤ 100) ∧
    (∀ t : Perf.PerfTree,
      0 ≤ (Perf.auditCoreWebVitals t).score ∧
        (Perf.auditCoreWebVitals t).score ≤ 100) ∧
    (∀ t : BCV.AegisTree, BCV.obScoreOf t ≤ 100 ∧ BCV.securityScoreOf t ≤ 100) ∧
    (∀ content : String,
      (Fintech.validateLgpdCompliance content).score ≤ 100 ∧
      (Fintech.validateBcbRegulations content).score ≤ 100 ∧
      (Fintech.validateDataProtection content).score ≤ 100 ∧
      (Fintech.validateFinancialSecurity content).score ≤ 100) := by
  refine ⟨?_, ?_, ?_, ?_, ?_, ?_, ?_, ?_⟩
  · intro t
    dsimp only [Perf.auditVoicePerformance]
    exact score_clamp_bounds (by split_ifs <;> norm_num)
  · intro t r h
    rcases hvp : Perf.vitePart t.viteConfig with e | vp
    · simp [Perf.auditBundleOptimization, hvp, Except.map] at h
    · have hd := vitePart_deduction_nonneg hvp
      simp only [Perf.auditBundleOptimization, hvp, Except.map, Except.ok.injEq] at h
      rw [← h]
      dsimp only
      exact score_clamp_bounds (by split_ifs <;> omega)
  · intro t r h
    rcases hmig : t.migrations with _ | migs
    · simp only [Perf.auditDatabasePerformance, hmig, Except.map, Except.ok.injEq] at h
      rw [← h]
      dsimp only
      exact score_clamp_bounds (by split_ifs <;> norm_num)
    · rcases hidx : Perf.findIndexInMigrations migs with e | idx
      · simp [Perf.auditDatabasePerformance, hmig, hidx, Except.map] at h
      · simp only [Perf.auditDatabasePerformance, hmig, hidx, Except.map,
          Except.ok.injEq] at h
        rw [← h]
        dsimp only
        cases idx <;> exact score_clamp_bounds (by split_ifs <;> norm_num)
  · intro t
    dsimp only [Perf.auditRealtimePerformance]
    exact score_clamp_bounds (by split_ifs <;> norm_num)
  · intro t
    dsimp only [Perf.auditMobileOptimization]
    exact score_clamp_bounds (by split_ifs <;> norm_num)
  · intro t
    dsimp only [Perf.auditCoreWebVitals]
    exact score_clamp_bounds (by split_ifs <;> norm_num)
  · intro t
    constructor
    · dsimp only [BCV.obScoreOf]; split_ifs <;> norm_num
    · dsimp only [BCV.securityScoreOf]; split_ifs <;> norm_num
  · intro content
    refine ⟨?_, ?_, ?_, ?_⟩
    · dsimp only [Fintech.validateLgpdCompliance]; split_ifs <;> norm_num
    · dsimp only [Fintech.validateBcbRegulations]; split_ifs <;> norm_num
    · dsimp only [Fintech.validateDataProtection]; split_ifs <;> norm_num
    · dsimp only [Fintech.validateFinancialSecurity]; split_ifs <;> norm_num

/-- Witness for C1 (amended): the bundle and database hypotheses discharged
on the empty corpus. -/
theorem C1_amended_score_bounds_witness :
    (Perf.auditBundleOptimization emptyPerfTree =
      .ok ⟨10,
        ["No Vite configuration found", "No code splitting with lazy loading found"],
        ["Set up Vite configuration with optimization features",
         "Implement lazy loading for better initial load times",
         "Set up bundle size analysis and monitoring"]⟩ ∧
      (0: ℤ) ≤ 10 ∧ (10 : ℤ) ≤ 100) ∧
    (Perf.auditDatabasePerformance emptyPerfTree =
      .ok ⟨75, [], ["Implement query result caching for better performance"]⟩ ∧
      (0 : ℤ) ≤ 75 ∧ (75 : ℤ) ≤ 100) := by
  have hb : Perf.auditBundleOptimization emptyPerfTree =
      .ok ⟨10,
        ["No Vite configuration found", "No code splitting with lazy loading found"],
        ["Set up Vite configuration with optimization features",
         "Implement lazy loading for better initial load times",
         "Set up bundle size analysis and monitoring"]⟩ := by rfl
  have hd : Perf.auditDatabasePerformance emptyPerfTree =
      .ok ⟨75, [], ["Implement query result caching for better performance"]⟩ := by rfl
  exact ⟨⟨hb, C1_amended_score_bounds.2.1 emptyPerfTree _ hb⟩,
         ⟨hd, C1_amended_score_bounds.2.2.1 emptyPerfTree _ hd⟩⟩

/-- Modelled from the spec: §8 predicts, for a deduction category over an
empty corpus, a score of exactly `100 − sum(weights of all its required
rules)`.  Per the spec's data model (§3, §4.4) a rule is *required* when its
failure emits an Issue rather than a Recommendation.  The required rules of
the database-performance category are the missing-index rule (weight 30)
and the three query anti-pattern rules (weight 20 each); its cache rule
emits only a recommendation. -/
def dbRequiredWeights : List ℤ := [30, 20, 20, 20]

/-- Modelled from the spec: the empty-corpus score §8 predicts for a
deduction category. -/
def specEmptyDeductionScore (weights : List ℤ) : ℤ := 100 - weights.sum

/-- **C3 counterexample.** On the empty corpus the database-performance
category scores 75 (only the cache rule fires: the index rule is gated on
an existing migrations directory and the query anti-pattern rules deduct on
*presence*), while the claim predicts `100 − (30+20+20+20) = 10`. -/
theorem C3_counterexample_database_category :
    (Perf.auditDatabasePerformance emptyPerfTree).map (fun c => c.score) = .ok 75 ∧
    specEmptyDeductionScore dbRequiredWeights = 10 ∧
    (75 : ℤ) ≠ 10 := by
  refine ⟨by rfl, by norm_num [specEmptyDeductionScore, dbRequiredWeights], by norm_num⟩

/-- **C3 (amended).** Over an empty corpus every PRESENCE check is
unsatisfied and every accrual category scores exactly 0, as claimed.  Every
deduction category scores `100` minus the sum of the weights of the
deductions that actually fire on an empty corpus, clamped at 0 — not
`100 − sum(required-rule weights)`: non-required rules also deduct, rules
gated on file presence (the index rule, the per-feature build-config rules)
do not fire, and anti-pattern rules deduct on presence rather than absence.
Concretely: voice 10, bundle 10, database 75, realtime 35, mobile 25,
core-web-vitals 0. -/
theorem C3_amended_empty_corpus :
    (∀ check : String → Bool, flagAny check (BCV.codeFiles emptyAegisTree) = false) ∧
    (∀ (check : String → Bool) (exts : List String),
      Perf.searchInFiles emptyPerfTree check exts = false) ∧
    ((BCV.validateAll emptyAegisTree []).map
      (fun r => (r.lgpd.score, r.pix.score, r.openbanking.score, r.security.score)) =
        .ok (0, 0, 0, 0)) ∧
    ((Fintech.validateProject true "" []).map
      (fun r => (r.lgpdCompliance.score, r.bcbRegulations.score,
                 r.dataProtection.score, r.financialSecurity.score)) =
        .ok (0, 0, 0, 0)) ∧
    ((Perf.auditVoicePerformance emptyPerfTree).score = 10 ∧
     (Perf.auditBundleOptimization emptyPerfTree).map (fun c => c.score) = .ok 10 ∧
     (Perf.auditDatabasePerformance emptyPerfTree).map (fun c => c.score) = .ok 75 ∧
     (Perf.auditRealtimePerformance emptyPerfTree).score = 35 ∧
     (Perf.auditMobileOptimization emptyPerfTree).score = 25 ∧
     (Perf.auditCoreWebVitals emptyPerfTree).score = 0) := by
  exact ⟨fun check => rfl, fun check exts => rfl, by rfl, by rfl,
    by rfl, by rfl, by rfl, by rfl, by rfl, by rfl⟩

/-- The aegis overall score as a function of the four category scores:
`_calculate_overall_score` applied to a results record holding them. -/
def aegisOverall (a b c d : ℕ) : ℕ :=
  (BCV.calculateOverallScore
    { BCV.initResults with
      lgpd := ⟨a, []⟩, pix := ⟨b, []⟩,
      openbanking := ⟨c, []⟩, security := ⟨d, []⟩ }).complianceScore

/-- Modelled from the spec: the claim's "mean over only those categories
whose score is nonzero", as an exact rational mean. -/
def ratMeanNonzero (l : List ℕ) : ℚ :=
  let nz := l.filter (fun s => 0 < s)
  (nz.sum : ℚ) / (nz.length : ℚ)

/-- Modelled from the spec: the claim's "mean over all four computed
categories", as an exact rational mean. -/
def ratMeanAll (l : List ℕ) : ℚ := (l.sum : ℚ) / (l.length : ℚ)

/-- **C8 counterexample.** Both validators use integer floor division, not
an exact mean: with category scores 70, 75, 0, 0 the aegis validator
reports 72, while the mean over the nonzero categories is 145/2 = 72.5. -/
theorem C8_counterexample_floor_division :
    aegisOverall 70 75 0 0 = 72 ∧
    ratMeanNonzero [70, 75, 0, 0] = 145 / 2 ∧
    ((72 : ℚ) ≠ 145 / 2) := by
  refine ⟨by rfl, by norm_num [ratMeanNonzero, List.filter], by norm_num⟩

/-- **C8 (amended).** The overall score is the *floor* of the mean of
category scores: in the aegis-architect compliance validator the floor of
the mean over the categories with nonzero score (and 0 when every category
is zero, the floor of the empty mean `0/0`), and in the brazilian-fintech
validator the floor of the mean over all four computed categories. -/
theorem C8_amended_floor_of_mean :
    (∀ a b c d : ℕ, aegisOverall a b c d = ⌊ratMeanNonzero [a, b, c, d]⌋₊) ∧
    (∀ a b c d : ℕ,
      Fintech.calculateOverallScore a b c d = ⌊ratMeanAll [a, b, c, d]⌋₊) := by
  have key : ∀ s n : ℕ, s / n = ⌊(s : ℚ) / (n : ℚ)⌋₊ := by
    intro s n
    rw [Nat.floor_div_nat ((s : ℚ)) n, Nat.floor_natCast]
  constructor
  · intro a b c d
    simp only [aegisOverall, BCV.calculateOverallScore, ratMeanNonzero]
    set nz := [a, b, c, d].filter (fun s => 0 < s) with hnz
    by_cases hE : nz.isEmpty
    · rw [List.isEmpty_iff] at hE
      simp [hE]
    · have : ¬ (nz.isEmpty = true) := hE
      simp only [if_neg this]
      exact key nz.sum nz.length
  · intro a b c d
    have hsum : ([a, b, c, d] : List ℕ).sum = a + b + c + d := by
      simp [Nat.add_assoc]
    have hlen : ([a, b, c, d] : List ℕ).length = 4 := by simp
    simp only [Fintech.calculateOverallScore, ratMeanAll, hsum, hlen]
    exact_mod_cast key (a + b + c + d) 4

end AegisWallet
